import Mathlib

/-! Verification of the build-plan synthesizer of the `zbentley/pulsar` repository.

Two source files are modelled:
* `pulsar-client-cpp/python/pkg/build-linux-wheels.py` (the "wheels" variant) —
  definitions carry the source names where Lean allows it;
* `pulsar-client-cpp/docker/zbuild/zbuild.py` (the "zbuild" variant) —
  definitions are prefixed with `z`.  The zbuild variant threads the class-level
  `_seen_names` registry as explicit state.

Python strings are modelled as Lean `String`; the handful of Python string
operations the code uses (`str.strip`, `str.rstrip`, `str.replace`,
`str.format`, `str.join`, `sorted`) are embedded below over `List Char`.
-/

/-- Python `s.strip(c)` for a single character `c`, acting on a character list:
removes every leading and every trailing occurrence of `c`. -/
def stripL (c : Char) (l : List Char) : List Char :=
  ((l.dropWhile (· == c)).reverse.dropWhile (· == c)).reverse

/-- Python `s.strip(c)` for a single character `c`. -/
def pyStripChar (c : Char) (s : String) : String :=
  String.mk (stripL c s.data)

/-- Python `s.rstrip(c)` for a single character `c`: removes every trailing
occurrence of `c`. -/
def pyRStripChar (c : Char) (s : String) : String :=
  String.mk ((s.data.reverse.dropWhile (· == c)).reverse)

/-- Replace every (non-overlapping, leftmost-first) occurrence of the pattern
`p :: ps` by `rep`, as Python `str.replace` does.  The `fuel` argument makes
the recursion structural; a fuel of the list's length always suffices because
every step consumes at least one character. -/
def replaceSubL (p : Char) (ps rep : List Char) : Nat → List Char → List Char
  | 0, l => l
  | _ + 1, [] => []
  | fuel + 1, c :: cs =>
    if c == p && ps.isPrefixOf cs then rep ++ replaceSubL p ps rep fuel (cs.drop ps.length)
    else c :: replaceSubL p ps rep fuel cs

/-- Python `s.replace(pat, rep)` for a non-empty pattern (an empty pattern is
never used by the source). -/
def pyReplace (s pat rep : String) : String :=
  match pat.data with
  | [] => s
  | p :: ps => String.mk (replaceSubL p ps rep.data s.data.length s.data)

/-- Python `version.replace(".", "_")` (single-character pattern). -/
def versionUnderscore (v : String) : String :=
  String.mk (v.data.map (fun c => if c == '.' then '_' else c))

/-- Python `url.format(version=version, version_underscore=version.replace(".", "_"))`:
the URL templates contain only the two named placeholders. -/
def pyFormatUrl (url version : String) : String :=
  pyReplace (pyReplace url "{version_underscore}" (versionUnderscore version)) "{version}" version

/-- Python `sorted` on a list of strings (ascending lexicographic by code point). -/
def pySorted (l : List String) : List String :=
  List.insertionSort (· ≤ ·) l

/-!  Errors of the synthesizer, following the spec's taxonomy.  A failed Python
`assert` is modelled by the corresponding condition. -/

inductive ZError where
  | invalidInstruction
  | unsupportedArchitecture (arch : String)
  | invalidVersion (s : String)
  | duplicateName (name : String)
deriving DecidableEq

/-!  Instruction model (`DockerInstruction` and subclasses; identical in both
source files).  `payload` is the single stored field; `__str__` renders
`f'{classname} {payload}'`. -/

inductive Instr where
  | RUN (payload : String)
  | ENV (payload : String)
  | ARG (payload : String)
  | COPY (payload : String)
deriving DecidableEq

/-- Rendering `DockerInstruction.__str__`: the class name, a space, the payload. -/
def instrStr : Instr → String
  | .RUN p => "RUN " ++ p
  | .ENV p => "ENV " ++ p
  | .ARG p => "ARG " ++ p
  | .COPY p => "COPY " ++ p

/-- The fragment separator of `RUN.__init__`: `' && \\\n    '`. -/
def runSep : String := " && \\\n    "

/-- Source `RUN.__init__`: asserts the fragment list non-empty, joins with `runSep`. -/
def mkRUN (args : List String) : Except ZError Instr :=
  if args.isEmpty then .error .invalidInstruction
  else .ok (.RUN (String.intercalate runSep args))

/-- Value stripping of `ENV.__init__`: `v.strip('"').strip("'")`. -/
def envStripValue (v : String) : String :=
  pyStripChar '\'' (pyStripChar '"' v)

/-- Source `ENV.__init__`: payload `f'{k}="{v}"'` after stripping `v`. -/
def mkENV (k v : String) : Instr :=
  .ENV (k ++ "=\"" ++ envStripValue v ++ "\"")

/-- Source `ARG` subclasses `ENV` changing only the rendered class name. -/
def mkARG (k v : String) : Instr :=
  .ARG (k ++ "=\"" ++ envStripValue v ++ "\"")

/-- Source `COPY.__init__`: payload `f'{src} {target.rstrip("/")}/'`, optionally
prefixed by `--from=<stage>`. -/
def mkCOPY (src target : String) (copyFrom : Option String) : Instr :=
  let payload := src ++ " " ++ pyRStripChar '/' target ++ "/"
  match copyFrom with
  | none => Instr.COPY payload
  | some f => Instr.COPY ("--from=" ++ f ++ " " ++ payload)

/-- One element of the assembled template list: either a plain string or a
constructed instruction (Python mixes both; `str` maps over them). -/
inductive Line where
  | raw (s : String)
  | instr (i : Instr)
deriving DecidableEq

def lineStr : Line → String
  | .raw s => s
  | .instr i => instrStr i

/-- Source `"\n".join(map(str, lines))`. -/
def renderLines (ls : List Line) : String :=
  String.intercalate "\n" (ls.map lineStr)

/-!  Models `distutils.version.StrictVersion`: a version is `major.minor[.patch][ab]N`
(regex `^(\d+)\.(\d+)(\.(\d+))?([ab](\d+))?$`); a missing patch is 0;
comparison is componentwise numeric on `(major, minor, patch)` and then on the
optional prerelease pair, a prerelease sorting below the plain release. -/

structure StrictVersion where
  major : Nat
  minor : Nat
  patch : Nat
  pre : Option (Char × Nat)
deriving DecidableEq

/-- Split a character list into its leading ASCII-digit run and the rest. -/
def takeDigits (l : List Char) : List Char × List Char :=
  (l.takeWhile (·.isDigit), l.dropWhile (·.isDigit))

def digitsToNat (l : List Char) : Nat :=
  l.foldl (fun acc c => 10 * acc + (c.toNat - '0'.toNat)) 0

/-- Parse the optional trailing prerelease `[ab]N` (must consume everything). -/
def parsePre : List Char → Option (Option (Char × Nat))
  | [] => some none
  | c :: rest =>
    if c == 'a' || c == 'b' then
      let (d, r) := takeDigits rest
      if d.isEmpty then none
      else match r with
        | [] => some (some (c, digitsToNat d))
        | _ => none
    else none

/-- Parse the optional `.patch` followed by the optional prerelease. -/
def parsePatchPre : List Char → Option (Nat × Option (Char × Nat))
  | '.' :: rest =>
    let (d, r) := takeDigits rest
    if d.isEmpty then none
    else match parsePre r with
      | some pre => some (digitsToNat d, pre)
      | none => none
  | l =>
    match parsePre l with
    | some pre => some (0, pre)
    | none => none

def parseVersionChars (l : List Char) : Option StrictVersion :=
  let (d1, r1) := takeDigits l
  if d1.isEmpty then none
  else match r1 with
    | '.' :: r2 =>
      let (d2, r3) := takeDigits r2
      if d2.isEmpty then none
      else match parsePatchPre r3 with
        | some (p, pre) => some ⟨digitsToNat d1, digitsToNat d2, p, pre⟩
        | none => none
    | _ => none

/-- Source `StrictVersion(s)`; `none` models the `ValueError` on an invalid version. -/
def parseStrictVersion (s : String) : Option StrictVersion :=
  parseVersionChars s.data

/-- Prerelease comparison of `StrictVersion._cmp`: both absent — equal; a
prerelease sorts below the plain release; two prereleases compare as
(letter, number) pairs. -/
def preCmp : Option (Char × Nat) → Option (Char × Nat) → Ordering
  | none, none => .eq
  | some _, none => .lt
  | none, some _ => .gt
  | some (c1, n1), some (c2, n2) =>
    match compare c1.toNat c2.toNat with
    | .eq => compare n1 n2
    | o => o

/-- Source `StrictVersion._cmp`: componentwise numeric comparison of the version
triple, then the prerelease rule. -/
def svCmp (a b : StrictVersion) : Ordering :=
  match compare a.major b.major with
  | .eq =>
    match compare a.minor b.minor with
    | .eq =>
      match compare a.patch b.patch with
      | .eq => preCmp a.pre b.pre
      | o => o
    | o => o
  | o => o

/-- Source `StrictVersion.__ge__`. -/
def svGE (a b : StrictVersion) : Bool :=
  match svCmp a b with
  | .lt => false
  | _ => true

/-!  Models `PulsarClientBuild` (wheels variant): target resolution. -/

def BASE_IMAGE_NAME : String := "pulsar_build_common"

def ARCHS : List String := ["arm64", "amd64"]

structure PulsarClientBuild where
  python : String
  arch : String
  builder_os : String
  wheel_platform : String
deriving DecidableEq

/-- Source `PulsarClientBuild.__init__`: asserts the architecture is supported, then
selects (builder OS, wheel platform) by `StrictVersion(python) >= StrictVersion('3.10')`. -/
def mkPulsarClientBuild (python arch : String) : Except ZError PulsarClientBuild :=
  if arch ∈ ARCHS then
    match parseStrictVersion python, parseStrictVersion "3.10" with
    | some v, some cutoff =>
      if svGE v cutoff then .ok ⟨python, arch, "debian:10", "manylinux_2_27"⟩
      else .ok ⟨python, arch, "debian:9", "manylinux_2_24"⟩
    | _, _ => .error (.invalidVersion python)
  else .error (.unsupportedArchitecture arch)

/-- Source `PulsarClientBuild.container_name`. -/
def container_name (b : PulsarClientBuild) : String :=
  String.intercalate "_" ["pulsar_python_client_build", b.python, b.arch]

example : parseStrictVersion "3.9.0" = some ⟨3, 9, 0, none⟩ := by decide
example : parseStrictVersion "3.10" = some ⟨3, 10, 0, none⟩ := by decide
example : parseStrictVersion "3.10a1" = some ⟨3, 10, 0, some ('a', 1)⟩ := by decide
example : svGE ⟨3, 9, 0, none⟩ ⟨3, 10, 0, none⟩ = false := by decide
example : mkPulsarClientBuild "3.9.0" "amd64" =
    .ok ⟨"3.9.0", "amd64", "debian:9", "manylinux_2_24"⟩ := rfl
example : mkPulsarClientBuild "3.10.10" "x86" = .error (.unsupportedArchitecture "x86") := rfl

example : envStripValue "'\"x\"'" = "\"x\"" := by decide
example : envStripValue "\"'x'\"" = "x" := by decide
example : mkRUN ["a", "b"] = .ok (.RUN "a && \\\n    b") := rfl
example : mkCOPY "./" "/pulsar/build/" none = .COPY "./ /pulsar/build/" := by decide
example : pyFormatUrl "https://z.net/z-{version}.tar.gz" "1.2.13" = "https://z.net/z-1.2.13.tar.gz" := by decide

/-!  Dependency install steps (wheels variant — note: no name-uniqueness
registry exists in this variant). -/

structure DependencyInstall where
  name : String
  workdir : String
  version : String
  url : String
  layer_name : String
deriving DecidableEq

/-- Source `PulsarDependencyDockerInstall.__init__` (wheels variant): formats the URL
template and derives the layer name `pulsar_build_<name>`; the caller's
workdir default is `/pulsar/scratch`. -/
def mkDependencyInstall (name version url workdir : String) : DependencyInstall :=
  { name, workdir, version,
    url := pyFormatUrl url version,
    layer_name := "pulsar_build_" ++ name }

/-- Source `PulsarDependencyDockerInstall.download`. -/
def download (url : String) : String :=
  "wget -c " ++ url ++ " -O - | tar -xzC . --strip-components=1"

/-- Source `PulsarDependencyDockerInstall.package_install` (wheels variant, with the
`unstable` flag). -/
def package_install (packages : List String) (unstable : Bool) : Except ZError Instr :=
  mkRUN
    [ "apt update",
      "apt install " ++ String.intercalate " " (pySorted packages) ++ " "
        ++ (if unstable then "-t unstable" else "") ++ " -y",
      "rm -rf /var/lib/apt/lists/*" ]

/-- Source `PulsarDependencyDockerInstall.package_uninstall` (both variants). -/
def package_uninstall (packages : List String) : Except ZError Instr :=
  mkRUN
    [ "apt update",
      "apt purge -y " ++ String.intercalate " " (pySorted packages),
      "apt autoremove --purge -y",
      "rm -rf /var/lib/apt/lists/*" ]

structure MakefileDep where
  base : DependencyInstall
  configure_stanza : String
  inline : Bool
deriving DecidableEq

/-- Source `MakefileDependency.__init__` (wheels variant). -/
def mkMakefileDependency (name version url : String) (inline : Bool)
    (configure_stanza : String) : MakefileDep :=
  { base := mkDependencyInstall name version url "/pulsar/scratch", configure_stanza, inline }

/-- The default `configure_stanza` of `MakefileDependency.__init__`. -/
def defaultConfigure : String := "test -e configure && ./configure || true"

/-- Source `MakefileDependency._build_stanza`. -/
def makefileBuildStanza (d : MakefileDep) : List String :=
  [download d.base.url, d.configure_stanza, "make -j$(nproc)"]

/-- Source `PulsarDependencyDockerInstall._pre_build` (base class). -/
def basePreBuild : List Line :=
  [Line.instr (mkENV "CFLAGS" "-fPIC -O3"), Line.instr (mkENV "CXXFLAGS" "-fPIC -O3")]

/-- The `'#' * 120` comment rule. -/
def hashRule : String := String.mk (List.replicate 120 '#')

/-- Source `MakefileDependency.execute_build`: a newline-plus-`#`-rule header, the
stage `FROM` line unless inline, then the base-class body (pre-build bindings
and the single build `RUN`; the post-build hook of this variant is empty). -/
def makefileExecuteBuild (d : MakefileDep) : Except ZError (List Line) := do
  let r ← mkRUN (["mkdir -p " ++ d.base.workdir, "cd " ++ d.base.workdir]
      ++ makefileBuildStanza d ++ ["ldconfig"])
  pure ([Line.raw ("\n" ++ hashRule)]
    ++ (if d.inline then []
        else [Line.raw ("FROM " ++ BASE_IMAGE_NAME ++ " AS " ++ d.base.layer_name)])
    ++ basePreBuild ++ [Line.instr r])

/-- Source `MakefileDependency.incorporate_build`: unless inline, the base-class body
(recreate the workdir, cross-stage copy), then the local install `RUN`. -/
def makefileIncorporateBuild (d : MakefileDep) : Except ZError (List Line) := do
  let head ←
    if d.inline then pure []
    else do
      let r ← mkRUN ["mkdir -p " ++ d.base.workdir]
      pure [Line.instr r,
            Line.instr (mkCOPY d.base.workdir d.base.workdir (some d.base.layer_name))]
  let r2 ← mkRUN ["cd " ++ d.base.workdir, "make install", "rm -rf " ++ d.base.workdir, "ldconfig"]
  pure (head ++ [Line.instr r2])

def INSTALL_FOLDER : String := "/usr/local/python3"

/-- Source `PulsarPythonDependency.__init__` (wheels variant). -/
def mkPulsarPythonDependency (python_version : String) : DependencyInstall :=
  mkDependencyInstall "python" python_version
    "github.com/pyenv/pyenv/archive/refs/heads/master.tar.gz" "/pulsar/scratch"

/-- The package list of `PulsarPythonDependency._post_build` (wheels variant). -/
def pythonUninstallPackages : List String :=
  [ "bzip2-doc", "icu-devtools", "libbz2-dev", "libffi-dev", "libgcrypt20-dev",
    "libglib2.0-0", "libglib2.0-data", "libgmp-dev", "libgmpxx4ldbl",
    "libgnutls-dane0", "libgnutls-openssl27", "libgnutls28-dev", "libgnutlsxx28",
    "libgpg-error-dev", "libidn11-dev", "liblzma-dev", "libncursesw5-dev",
    "libnspr4", "libnspr4-dev", "libnss3", "libnss3-dev", "libp11-kit-dev",
    "libreadline-dev", "libsqlite3-dev", "libtasn1-6-dev", "libtasn1-doc",
    "libtinfo-dev", "libxml2", "libxml2-dev", "libxmlsec1", "libxmlsec1-dev",
    "libxmlsec1-gcrypt", "libxmlsec1-gnutls", "libxmlsec1-nss",
    "libxmlsec1-openssl", "libxslt1-dev", "libxslt1.1", "nettle-dev",
    "pkg-config", "sgml-base", "shared-mime-info", "xdg-user-dirs", "xml-core" ]

/-- Source `PulsarPythonDependency._pre_build` (wheels variant). -/
def pythonPreBuild : Except ZError (List Line) := do
  let pkgs ← package_install
    [ "libbz2-dev", "libreadline-dev", "libsqlite3-dev", "libncursesw5-dev",
      "libxml2-dev", "libxmlsec1-dev", "libffi-dev", "liblzma-dev", "zlib1g",
      "zlib1g-dev" ] false
  let chk ← mkRUN ["test ! -d " ++ INSTALL_FOLDER]
  pure (basePreBuild
    ++ [Line.instr (mkENV "CONFIGURE_OPTS" "--enable-shared"), Line.instr pkgs, Line.instr chk])

/-- Source `PulsarPythonDependency._build_stanza` (wheels variant). -/
def pythonBuildStanza (d : DependencyInstall) : List String :=
  [ download d.url,
    "./plugins/python-build/bin/python-build " ++ d.version ++ " " ++ INSTALL_FOLDER
      ++ " || cat /tmp/python-build* 1>&2 | grep nonex",
    "if [ -e " ++ INSTALL_FOLDER ++ "/include/python3.7m ]; then ln -s " ++ INSTALL_FOLDER
      ++ "/include/python3.7m/ " ++ INSTALL_FOLDER ++ "/include/python3.7; fi",
    "rm -rf $(pwd)" ]

/-- Source `PulsarPythonDependency._post_build` (wheels variant). -/
def pythonPostBuild : Except ZError (List Line) := do
  let u ← package_uninstall pythonUninstallPackages
  pure [Line.instr u]

/-- Source `PulsarPythonDependency.execute_build` (wheels variant): the base-class
body — pre-build, one build `RUN`, post-build; no stage header of its own. -/
def pythonExecuteBuild (d : DependencyInstall) : Except ZError (List Line) := do
  let pre ← pythonPreBuild
  let r ← mkRUN (["mkdir -p " ++ d.workdir, "cd " ++ d.workdir]
      ++ pythonBuildStanza d ++ ["ldconfig"])
  let post ← pythonPostBuild
  pure (pre ++ [Line.instr r] ++ post)

/-- Source `PulsarBoostDependency.__init__` (wheels variant). -/
def mkPulsarBoostDependency (version : String) : DependencyInstall :=
  mkDependencyInstall "boost" version
    "https://boostorg.jfrog.io/artifactory/main/release/{version}/source/boost_{version_underscore}.tar.gz"
    "/pulsar/scratch"

/-- Source `PulsarBoostDependency._build_stanza`. -/
def boostBuildStanza (d : DependencyInstall) : List String :=
  [ download d.url,
    "./bootstrap.sh --with-libraries=python,regex --with-python=python3 --with-python-root="
      ++ INSTALL_FOLDER,
    "./b2 cxxflags=\"${CXXFLAGS}\" -d0 -q -j $(nproc) address-model=64 link=static threading=multi variant=release install",
    "rm -rf $(pwd)" ]

/-- Source `PulsarBoostDependency.execute_build`: the base-class body. -/
def boostExecuteBuild (d : DependencyInstall) : Except ZError (List Line) := do
  let r ← mkRUN (["mkdir -p " ++ d.workdir, "cd " ++ d.workdir]
      ++ boostBuildStanza d ++ ["ldconfig"])
  pure (basePreBuild ++ [Line.instr r])

/-- The `layer_dependencies` list of `PulsarClientBuild.dockerfile_lines`. -/
def layer_dependencies : List MakefileDep :=
  [ mkMakefileDependency "protobuf" "3.19.2"
      "https://github.com/protocolbuffers/protobuf/releases/download/v{version}/protobuf-cpp-{version}.tar.gz"
      false defaultConfigure,
    mkMakefileDependency "zlib" "1.2.13" "https://zlib.net/zlib-{version}.tar.gz"
      false defaultConfigure,
    mkMakefileDependency "curl" "7.61.0"
      "https://github.com/curl/curl/releases/download/curl-{version_underscore}/curl-{version}.tar.gz"
      false defaultConfigure,
    mkMakefileDependency "zstd" "1.3.7"
      "https://github.com/facebook/zstd/releases/download/v{version}/zstd-{version}.tar.gz"
      false "true",
    mkMakefileDependency "snappy" "1.1.3"
      "https://github.com/google/snappy/releases/download/{version}/snappy-{version}.tar.gz"
      false defaultConfigure,
    mkMakefileDependency "patchelf" "0.12"
      "https://github.com/NixOS/patchelf/archive/refs/tags/{version}.tar.gz"
      false "./bootstrap.sh && ./configure",
    mkMakefileDependency "gtest" "1.10.0"
      "https://github.com/google/googletest/archive/refs/tags/release-{version}.tar.gz"
      false "cmake ." ]

def pypath : String := INSTALL_FOLDER ++ "/bin/python3"

/-- Source `PulsarClientBuild.dockerfile_lines` (wheels variant). -/
def dockerfile_lines (b : PulsarClientBuild) : Except ZError (List Line) := do
  let r1 ← mkRUN
    [ "echo 'exec ls -lah \"$@\"' > /usr/local/bin/ll",
      "chmod +x /usr/local/bin/ll",
      "mkdir -p /pulsar/scratch",
      "mkdir -p /pulsar/build" ]
  let i2 ← package_install
    ["build-essential", "wget", "libtool", "openssl", "libssl-dev", "autoconf", "xz-utils"] false
  let i3 ← package_uninstall ["curl", "python", "python3", "zlib1g-dev"]
  let r4 ← mkRUN ["rm -rf /usr/lib/python* /usr/local/lib/python* /usr/local/bin/python*"]
  let r5 ← mkRUN ["wget -c https://cmake.org/files/v3.22/cmake-3.22.6-linux-$(arch).tar.gz -O - | tar -xzC /usr/local --strip-components=1"]
  let execBuilds ← layer_dependencies.foldlM
    (fun acc d => do
      let ls ← makefileExecuteBuild d
      pure (acc ++ ls)) ([] : List Line)
  let boost := mkPulsarBoostDependency "1.78.0"
  let python := mkPulsarPythonDependency b.python
  let pyBuild ← pythonExecuteBuild python
  let boostBuild ← boostExecuteBuild boost
  let incorporates ← layer_dependencies.foldlM
    (fun acc d => do
      let ls ← makefileIncorporateBuild d
      pure (acc ++ [Line.raw "\n", Line.raw ("# Incorporate build " ++ d.base.layer_name)] ++ ls))
    ([] : List Line)
  let rPip ← mkRUN
    [ pypath ++ " -m ensurepip --upgrade",
      pypath ++ " -m pip install --upgrade pip",
      pypath ++ " -m pip install --upgrade pip six grpcio-tools==1.44.0 certifi auditwheel==5.1.2 setuptools wheel",
      pypath ++ " -m pip cache purge" ]
  let rCmake ← mkRUN
    [ "find . -name CMakeCache.txt | xargs -r rm -rf",
      "find . -name CMakeFiles | xargs -r rm -rf",
      "find . -name \\*.egg-info | xargs -r rm -rf",
      "rm -rf python/wheelhouse python/build python/dist",
      "cmake . -DLINK_STATIC=ON -DBUILD_TESTS=ON",
      "make clean",
      "make pulsarShared pulsarStatic _pulsar -j$(nproc)" ]
  let rWheel ← mkRUN
    [ pypath ++ " setup.py bdist_wheel",
      pypath ++ " -m auditwheel --verbose repair --plat " ++ b.wheel_platform
        ++ "_$(arch) dist/pulsar_client*.whl",
      pypath ++ " -m pip install wheelhouse/*.whl",
      "cd /",
      pypath ++ " -c \"import pulsar\"",
      pypath ++ " -c \"import logging; from grpc_tools.protoc import main as protoc; import pulsar;\"" ]
  pure (
    [ Line.raw ("FROM " ++ b.builder_os ++ " AS " ++ BASE_IMAGE_NAME),
      Line.instr r1, Line.instr i2, Line.instr i3, Line.instr r4, Line.instr r5 ]
    ++ execBuilds
    ++ [Line.raw "\n", Line.raw hashRule,
        Line.raw ("FROM " ++ BASE_IMAGE_NAME ++ " AS pulsar_build_main")]
    ++ pyBuild
    ++ [Line.instr (mkENV "PATH" (INSTALL_FOLDER ++ "/bin:$PATH"))]
    ++ boostBuild
    ++ incorporates
    ++ [ Line.instr rPip,
         Line.instr (mkCOPY "./" "/pulsar/build/" none),
         Line.raw "WORKDIR /pulsar/build/pulsar-client-cpp",
         Line.instr (mkENV "CXXFLAGS" ""),
         Line.instr (mkENV "CFLAGS" ""),
         Line.instr (mkENV "USE_FULL_POM_NAME" "True"),
         Line.instr rCmake,
         Line.raw "WORKDIR /pulsar/build/pulsar-client-cpp/python",
         Line.instr rWheel ])

/-- Per-target plan text of `main`: `"\n".join(map(str, build.dockerfile_lines()))`. -/
def renderBuild (python arch : String) : Except ZError String := do
  let b ← mkPulsarClientBuild python arch
  let ls ← dockerfile_lines b
  pure (renderLines ls)

example : (renderBuild "3.8.16" "amd64").isOk = true := rfl

/-!  The zbuild variant (`docker/zbuild/zbuild.py`).  Its
`PulsarDependencyDockerInstall` keeps a class-level `_seen_names` set shared by
the whole process; construction asserts the name unseen and records it.  The
registry is threaded below as explicit state (a list of names).  Definitions
shared verbatim with the wheels variant (instructions, `download`,
`package_uninstall`, `stripL`, …) are reused; zbuild-specific ones are
prefixed with `z`. -/

/-- Source `PulsarDependencyDockerInstall.__init__` (zbuild variant): fails on a name
already in `_seen_names`, otherwise records it and builds the step. -/
def zMkDep (seen : List String) (name version url workdir : String) :
    Except ZError (DependencyInstall × List String) :=
  if seen.contains name then .error (.duplicateName name)
  else .ok
    ({ name, workdir, version,
       url := pyFormatUrl url version,
       layer_name := "pulsar_build_" ++ name }, name :: seen)

/-- Source `MakefileDependency.__init__` (zbuild variant). -/
def zMkMakefileDependency (seen : List String) (name version url : String)
    (inline : Bool) (configure_stanza : String) :
    Except ZError (MakefileDep × List String) := do
  let (d, seen') ← zMkDep seen name version url "/pulsar/scratch"
  pure ({ base := d, configure_stanza, inline }, seen')

/-- Source `PulsarDependencyDockerInstall.package_install` (zbuild variant: no
`unstable` flag, `-y` before the package list). -/
def zPackage_install (packages : List String) : Except ZError Instr :=
  mkRUN
    [ "apt update",
      "apt install -y " ++ String.intercalate " " (pySorted packages),
      "rm -rf /var/lib/apt/lists/*" ]

/-- The package list of `PulsarPythonDependency._post_build` (zbuild variant). -/
def zPythonUninstallPackages : List String :=
  [ "bzip2-doc", "icu-devtools", "libbz2-dev", "libffi-dev", "libgcrypt20-dev",
    "libglib2.0-0", "libglib2.0-data", "libgmp-dev", "libgmpxx4ldbl",
    "libgnutls-dane0", "libgnutls-openssl27", "libgnutls28-dev", "libgnutlsxx28",
    "libgpg-error-dev", "libicu-dev", "libicu57", "libidn11-dev", "liblzma-dev",
    "libncursesw5-dev", "libnspr4", "libnspr4-dev", "libnss3", "libnss3-dev",
    "libp11-kit-dev", "libreadline-dev", "libsqlite3-dev", "libtasn1-6-dev",
    "libtasn1-doc", "libtinfo-dev", "libunbound2", "libxml2", "libxml2-dev",
    "libxmlsec1", "libxmlsec1-dev", "libxmlsec1-gcrypt", "libxmlsec1-gnutls",
    "libxmlsec1-nss", "libxmlsec1-openssl", "libxslt1-dev", "libxslt1.1",
    "nettle-dev", "pkg-config", "sgml-base", "shared-mime-info",
    "xdg-user-dirs", "xml-core" ]

/-- Source `PulsarPythonDependency._pre_build` (zbuild variant). -/
def zPythonPreBuild : Except ZError (List Line) := do
  let pkgs ← zPackage_install
    [ "libbz2-dev", "libreadline-dev", "libsqlite3-dev", "libncursesw5-dev",
      "libxml2-dev", "libxmlsec1-dev", "libffi-dev", "liblzma-dev" ]
  let chk ← mkRUN ["test ! -d " ++ INSTALL_FOLDER]
  pure (basePreBuild
    ++ [Line.instr (mkENV "CONFIGURE_OPTS" "--enable-shared"), Line.instr pkgs, Line.instr chk])

/-- Source `PulsarPythonDependency._build_stanza` (zbuild variant: no `|| cat …` suffix). -/
def zPythonBuildStanza (d : DependencyInstall) : List String :=
  [ download d.url,
    "./plugins/python-build/bin/python-build " ++ d.version ++ " " ++ INSTALL_FOLDER,
    "if [ -e " ++ INSTALL_FOLDER ++ "/include/python3.7m ]; then ln -s " ++ INSTALL_FOLDER
      ++ "/include/python3.7m/ " ++ INSTALL_FOLDER ++ "/include/python3.7; fi",
    "rm -rf $(pwd)" ]

/-- Source `PulsarPythonDependency._post_build` (zbuild variant). -/
def zPythonPostBuild : Except ZError (List Line) := do
  let u ← package_uninstall zPythonUninstallPackages
  pure [Line.instr u]

/-- Source `PulsarPythonDependency.execute_build` (zbuild variant: yields
`ARG PYTHON_VERSION="3.8.13"` first, then the base-class body). -/
def zPythonExecuteBuild (d : DependencyInstall) : Except ZError (List Line) := do
  let pre ← zPythonPreBuild
  let r ← mkRUN (["mkdir -p " ++ d.workdir, "cd " ++ d.workdir]
      ++ zPythonBuildStanza d ++ ["ldconfig"])
  let post ← zPythonPostBuild
  pure ([Line.instr (mkARG "PYTHON_VERSION" "3.8.13")] ++ pre ++ [Line.instr r] ++ post)

/-- Source `dockerfile_lines` (zbuild variant): a function of the threaded
`_seen_names` registry only — it takes no version/architecture input.  Returns
the template lines together with the updated registry. -/
def zDockerfile_lines (seen : List String) : Except ZError (List Line × List String) := do
  let (protobuf, s1) ← zMkMakefileDependency seen "protobuf" "3.19.2"
    "https://github.com/protocolbuffers/protobuf/releases/download/v{version}/protobuf-cpp-{version}.tar.gz"
    false defaultConfigure
  let (zlib, s2) ← zMkMakefileDependency s1 "zlib" "1.2.12" "https://zlib.net/zlib-{version}.tar.gz"
    false defaultConfigure
  let (curl, s3) ← zMkMakefileDependency s2 "curl" "7.61.0"
    "https://github.com/curl/curl/releases/download/curl-{version_underscore}/curl-{version}.tar.gz"
    false defaultConfigure
  let (zstd, s4) ← zMkMakefileDependency s3 "zstd" "1.3.7"
    "https://github.com/facebook/zstd/releases/download/v{version}/zstd-{version}.tar.gz"
    false "true"
  let (snappy, s5) ← zMkMakefileDependency s4 "snappy" "1.1.3"
    "https://github.com/google/snappy/releases/download/{version}/snappy-{version}.tar.gz"
    false defaultConfigure
  let (patchelf, s6) ← zMkMakefileDependency s5 "patchelf" "0.12"
    "https://github.com/NixOS/patchelf/archive/refs/tags/{version}.tar.gz"
    false "./bootstrap.sh && ./configure"
  let (gtest, s7) ← zMkMakefileDependency s6 "gtest" "1.10.0"
    "https://github.com/google/googletest/archive/refs/tags/release-{version}.tar.gz"
    false "cmake ."
  let zLayerDeps := [protobuf, zlib, curl, zstd, snappy, patchelf, gtest]
  let r1 ← mkRUN
    [ "echo 'exec ls -lah \"$@\"' > /usr/local/bin/ll",
      "chmod +x /usr/local/bin/ll",
      "mkdir -p /pulsar/scratch",
      "mkdir -p /pulsar/build" ]
  let i2 ← zPackage_install
    ["build-essential", "wget", "libtool", "autoconf", "openssl", "libssl-dev", "xz-utils"]
  let i3 ← package_uninstall ["curl", "python", "python3", "zlib1g-dev"]
  let r4 ← mkRUN ["rm -rf /usr/lib/python* /usr/local/lib/python* /usr/local/bin/python*"]
  let r5 ← mkRUN ["wget -c https://cmake.org/files/v3.22/cmake-3.22.6-linux-$(arch).tar.gz -O - | tar -xzC /usr/local --strip-components=1"]
  let execBuilds ← zLayerDeps.foldlM
    (fun acc d => do
      let ls ← makefileExecuteBuild d
      pure (acc ++ ls)) ([] : List Line)
  let (boost, s8) ← zMkDep s7 "boost" "1.72.0"
    "https://boostorg.jfrog.io/artifactory/main/release/{version}/source/boost_{version_underscore}.tar.gz"
    "/pulsar/scratch"
  let (python, s9) ← zMkDep s8 "python" "${PYTHON_VERSION}"
    "github.com/pyenv/pyenv/archive/refs/heads/master.tar.gz" "/pulsar/scratch"
  let pyBuild ← zPythonExecuteBuild python
  let boostBuild ← boostExecuteBuild boost
  let incorporates ← zLayerDeps.foldlM
    (fun acc d => do
      let ls ← makefileIncorporateBuild d
      pure (acc ++ [Line.raw "\n", Line.raw ("# Incorporate build " ++ d.base.layer_name)] ++ ls))
    ([] : List Line)
  let rPip ← mkRUN
    [ pypath ++ " -m ensurepip --upgrade",
      pypath ++ " -m pip install --upgrade pip",
      pypath ++ " -m pip install --upgrade pip six grpcio-tools==1.44.0 certifi auditwheel setuptools wheel",
      pypath ++ " -m pip cache purge" ]
  let rCmake ← mkRUN
    [ "find . -name CMakeCache.txt | xargs -r rm -rf",
      "find . -name CMakeFiles.txt | xargs -r rm -rf",
      "find . -name \\*.egg-info | xargs -r rm -rf",
      "rm -rf python/wheelhouse python/build python/dist",
      "cmake . -DLINK_STATIC=ON -DBUILD_TESTS=ON",
      "make clean",
      "make pulsarShared pulsarStatic _pulsar -j$(nproc)" ]
  let rWheel ← mkRUN
    [ pypath ++ " setup.py bdist_wheel",
      pypath ++ " -mauditwheel --verbose repair --plat manylinux_2_24_$(arch) dist/pulsar_client*.whl",
      pypath ++ " -mpip install wheelhouse/*.whl",
      "cd /",
      pypath ++ " -c \"import pulsar\"",
      pypath ++ " -c \"import logging; from grpc_tools.protoc import main as protoc; import pulsar;\"" ]
  pure ((
    [ Line.raw ("FROM debian:9 AS " ++ BASE_IMAGE_NAME),
      Line.instr r1, Line.instr i2, Line.instr i3, Line.instr r4, Line.instr r5 ]
    ++ execBuilds
    ++ [Line.raw "\n", Line.raw hashRule,
        Line.raw ("FROM " ++ BASE_IMAGE_NAME ++ " AS pulsar_build_main")]
    ++ pyBuild
    ++ [Line.instr (mkENV "PATH" (INSTALL_FOLDER ++ "/bin:$PATH"))]
    ++ boostBuild
    ++ incorporates
    ++ [ Line.instr rPip,
         Line.instr (mkCOPY "./" "/pulsar/build/" none),
         Line.raw "WORKDIR /pulsar/build/pulsar-client-cpp",
         Line.instr (mkENV "CXXFLAGS" ""),
         Line.instr (mkENV "CFLAGS" ""),
         Line.instr (mkENV "USE_FULL_POM_NAME" "True"),
         Line.instr rCmake,
         Line.raw "WORKDIR /pulsar/build/pulsar-client-cpp/python",
         Line.instr rWheel ]), s9)

/-- The `_seen_names` registry contents after the first successful
`dockerfile_lines()` call of a zbuild process. -/
def zSeenAfterFirst : List String :=
  match zDockerfile_lines [] with
  | .ok r => r.2
  | .error _ => []

/-- Two sequential `dockerfile_lines()` calls in one zbuild process, rendering
both results (the registry state of the first call is what the second sees). -/
def zRenderTwice : Except ZError (String × String) := do
  let (l1, s1) ← zDockerfile_lines []
  let (l2, _) ← zDockerfile_lines s1
  pure (renderLines l1, renderLines l2)

example : (zDockerfile_lines []).isOk = true := rfl
example : zSeenAfterFirst =
    ["python", "boost", "gtest", "patchelf", "snappy", "zstd", "curl", "zlib", "protobuf"] := rfl

/-!  Build orchestrator (`main` of the wheels variant). -/

/-- The requested runtime versions of `main`. -/
def PYTHON_VERSIONS : List String := ["3.7.16", "3.8.16", "3.10.10"]

/-- The matrix enumeration of `main`: the outer loop ranges over the versions,
the inner loop over the fixed tuple `PulsarClientBuild.ARCHS = ('arm64', 'amd64')`. -/
def enumTargets (versions : List String) : List (String × String) :=
  versions.flatMap (fun v => ARCHS.map (fun a => (v, a)))

def allTargets : List (String × String) := enumTargets PYTHON_VERSIONS

/-- One pass of `main`'s loop over a target list.  Every external step of a
target goes through `run = partial(subprocess.run, check=True)`; `check=True`
raises `CalledProcessError` on failure and nothing in `main` catches it, so
the loop stops at the first failing target.  `ok` is the external
build-and-extract collaborator's verdict per target.  Result: the list of
attempted targets, and the failing target whose exception escaped, if any. -/
def matrixRun (ok : String × String → Bool) :
    List (String × String) → List (String × String) × Option (String × String)
  | [] => ([], none)
  | t :: ts =>
    if ok t then
      let r := matrixRun ok ts
      (t :: r.1, r.2)
    else ([t], some t)

/-- Source `main`: run the matrix over the full version × architecture enumeration. -/
def mainRun (ok : String × String → Bool) :
    List (String × String) × Option (String × String) :=
  matrixRun ok allTargets

/-- A collaborator that fails on the first matrix target and succeeds on all
others. -/
def failFirstOracle (t : String × String) : Bool :=
  !(t == ("3.7.16", "arm64"))

example : allTargets.length = 6 := rfl
example : mainRun failFirstOracle = ([("3.7.16", "arm64")], some ("3.7.16", "arm64")) := rfl

/-!  Helper lemmas: Python stripping, sortedness, matrix enumeration. -/

theorem stripL_idempotent (c : Char) (l : List Char) :
    stripL c (stripL c l) = stripL c l := by
  have hm : (l.dropWhile (· == c)).dropWhile (· == c) = l.dropWhile (· == c) :=
    List.dropWhile_idempotent _ _
  have hpre : List.rdropWhile (· == c) (l.dropWhile (· == c)) <+: l.dropWhile (· == c) :=
    List.rdropWhile_prefix (· == c) (l.dropWhile (· == c))
  have hhead : ∀ hl : 0 < (l.dropWhile (· == c)).length,
      ¬ (((l.dropWhile (· == c)).get ⟨0, hl⟩) == c) = true :=
    List.dropWhile_eq_self_iff.mp hm
  have hfix : (List.rdropWhile (· == c) (l.dropWhile (· == c))).dropWhile (· == c) =
      List.rdropWhile (· == c) (l.dropWhile (· == c)) := by
    apply List.dropWhile_eq_self_iff.mpr
    intro hl
    have hlm : 0 < (l.dropWhile (· == c)).length := lt_of_lt_of_le hl hpre.length_le
    have hget : (List.rdropWhile (· == c) (l.dropWhile (· == c))).get ⟨0, hl⟩ =
        (l.dropWhile (· == c)).get ⟨0, hlm⟩ := by
      simp only [List.get_eq_getElem]
      exact hpre.getElem hl
    rw [hget]
    exact hhead hlm
  show List.rdropWhile (· == c) ((List.rdropWhile (· == c) (l.dropWhile (· == c))).dropWhile (· == c)) =
    List.rdropWhile (· == c) (l.dropWhile (· == c))
  rw [hfix, List.rdropWhile_idempotent]

theorem pyStripChar_idempotent (c : Char) (s : String) :
    pyStripChar c (pyStripChar c s) = pyStripChar c s :=
  congrArg String.mk (stripL_idempotent c s.data)

theorem stripL_get_zero_ne (c : Char) (l : List Char)
    (hl : 0 < (stripL c l).length) : (stripL c l).get ⟨0, hl⟩ ≠ c := by
  have hpre : List.rdropWhile (· == c) (l.dropWhile (· == c)) <+: l.dropWhile (· == c) :=
    List.rdropWhile_prefix (· == c) (l.dropWhile (· == c))
  have hlm : 0 < (l.dropWhile (· == c)).length := lt_of_lt_of_le hl hpre.length_le
  have hget : (stripL c l).get ⟨0, hl⟩ = (l.dropWhile (· == c)).get ⟨0, hlm⟩ := by
    simp only [List.get_eq_getElem]
    exact hpre.getElem hl
  have hnot := List.dropWhile_get_zero_not (· == c) l hlm
  rw [hget]
  intro heq
  exact hnot (by rw [heq]; simp)

theorem stripL_getLast_ne (c : Char) (l : List Char)
    (hl : stripL c l ≠ []) : (stripL c l).getLast hl ≠ c := by
  intro heq
  have h2 := List.rdropWhile_last_not (· == c) (l.dropWhile (· == c)) hl
  exact h2 (by show ((stripL c l).getLast hl == c) = true; rw [heq]; simp)

theorem pySorted_perm_eq {l₁ l₂ : List String} (h : l₁.Perm l₂) : pySorted l₁ = pySorted l₂ :=
  List.eq_of_perm_of_sorted
    ((List.perm_insertionSort _ l₁).trans (h.trans (List.perm_insertionSort _ l₂).symm))
    (List.sorted_insertionSort _ l₁) (List.sorted_insertionSort _ l₂)

theorem mem_enumTargets (versions : List String) (v a : String) :
    (v, a) ∈ enumTargets versions ↔ v ∈ versions ∧ a ∈ ARCHS := by
  simp only [enumTargets, List.mem_flatMap, List.mem_map, Prod.mk.injEq]
  constructor
  · rintro ⟨x, hx, y, hy, rfl, rfl⟩
    exact ⟨hx, hy⟩
  · rintro ⟨hv, ha⟩
    exact ⟨v, hv, a, ha, rfl, rfl⟩

theorem enumTargets_nodup (versions : List String) (h : versions.Nodup) :
    (enumTargets versions).Nodup := by
  apply List.nodup_flatMap.mpr
  refine ⟨?_, ?_⟩
  · intro v _
    exact List.Nodup.map (fun a b hab => congrArg Prod.snd hab) (by decide)
  · refine h.imp ?_
    intro a b hne p hpa hpb
    rcases List.mem_map.mp hpa with ⟨x, _, rfl⟩
    rcases List.mem_map.mp hpb with ⟨y, _, hxy⟩
    exact hne (congrArg Prod.fst hxy).symm

theorem matrixRun_none (ok : String × String → Bool) :
    ∀ ts : List (String × String), (matrixRun ok ts).2 = none → (matrixRun ok ts).1 = ts := by
  intro ts
  induction ts with
  | nil => intro _; rfl
  | cons t ts ih =>
    intro h
    by_cases hk : ok t
    · simp only [matrixRun, if_pos hk] at h ⊢
      exact congrArg (t :: ·) (ih h)
    · simp only [matrixRun, if_neg hk] at h
      exact absurd h (by simp)

theorem matrixRun_some (ok : String × String → Bool) :
    ∀ (ts : List (String × String)) (t : String × String),
      (matrixRun ok ts).2 = some t →
      ok t = false ∧ (matrixRun ok ts).1 = ts.takeWhile ok ++ [t] := by
  intro ts
  induction ts with
  | nil => intro t h; exact absurd h (by simp [matrixRun])
  | cons s ts ih =>
    intro t h
    by_cases hk : ok s
    · simp only [matrixRun, if_pos hk] at h ⊢
      obtain ⟨h1, h2⟩ := ih t h
      refine ⟨h1, ?_⟩
      rw [List.takeWhile_cons_of_pos hk, List.cons_append, h2]
    · simp only [matrixRun, if_neg hk] at h ⊢
      obtain rfl : s = t := by simpa using h
      refine ⟨by simpa using hk, ?_⟩
      rw [List.takeWhile_cons_of_neg hk]
      simp

/-!  Claim theorems. -/

/-- C3: for every non-empty fragment list, the constructed `RUN` instruction
renders as `RUN ` followed by the fragments joined in their original order by
the short-circuit separator `' && \\\n    '`, with no fragment dropped or
reordered; an empty fragment list fails with the `InvalidInstruction`
condition at construction time, before any rendering. -/
theorem run_fragments_joined_in_order :
    (∀ args : List String, args ≠ [] →
      mkRUN args = .ok (.RUN (String.intercalate runSep args)) ∧
      instrStr (.RUN (String.intercalate runSep args)) =
        "RUN " ++ String.intercalate " && \\\n    " args) ∧
    mkRUN [] = .error .invalidInstruction := by
  refine ⟨?_, rfl⟩
  intro args h
  refine ⟨?_, rfl⟩
  rw [mkRUN, if_neg]
  simp [h]

/-- Witness for `run_fragments_joined_in_order` at a concrete two-fragment list. -/
theorem run_fragments_joined_in_order_witness :
    mkRUN ["apt update", "ldconfig"] =
      .ok (.RUN (String.intercalate runSep ["apt update", "ldconfig"])) ∧
    instrStr (.RUN (String.intercalate runSep ["apt update", "ldconfig"])) =
      "RUN " ++ String.intercalate " && \\\n    " ["apt update", "ldconfig"] :=
  run_fragments_joined_in_order.1 ["apt update", "ldconfig"] (by decide)

/-- C4 counterexample: the quote stripping of `ENV.__init__` is not idempotent
— for the value `'"x"'` a single strip yields `"x"` and stripping that
already-stripped value changes it again, to `x`. -/
theorem env_strip_not_idempotent :
    envStripValue (envStripValue "'\"x\"'") ≠ envStripValue "'\"x\"'" := by decide

/-- C4 (amended): rendering an `EnvBinding`/`BuildArg` strips all leading and
trailing double-quote characters from the value and then all leading and
trailing single-quote characters from the result, before re-quoting in double
quotes; each single-kind strip is idempotent, but the combined two-kind strip
is not idempotent in general (a double-quote run exposed by the single-quote
strip is removed by a second application). -/
theorem env_strip_per_kind_idempotent :
    (∀ k v, mkENV k v = .ENV (k ++ "=\"" ++ pyStripChar '\'' (pyStripChar '"' v) ++ "\"") ∧
            mkARG k v = .ARG (k ++ "=\"" ++ pyStripChar '\'' (pyStripChar '"' v) ++ "\"")) ∧
    (∀ s, pyStripChar '"' (pyStripChar '"' s) = pyStripChar '"' s) ∧
    (∀ s, pyStripChar '\'' (pyStripChar '\'' s) = pyStripChar '\'' s) :=
  ⟨fun _ _ => ⟨rfl, rfl⟩,
   fun s => pyStripChar_idempotent '"' s,
   fun s => pyStripChar_idempotent '\'' s⟩

/-- C9 counterexample: for the value `"'x'"` — a single-quote layer nested
inside an outer double-quote layer — the rendered payload is `K="x"`, not the
`K="'x'"` the claim predicts: the nested single-quote layer is removed, not
kept. -/
theorem env_nested_single_quotes_removed :
    mkENV "K" "\"'x'\"" ≠ .ENV "K=\"'x'\"" ∧ mkENV "K" "\"'x'\"" = .ENV "K=\"x\"" := by
  exact ⟨by decide, by decide⟩

/-- C9 (amended): the ENV/ARG constructor is total and renders exactly
`k="s"` where `s` is the value with all leading/trailing double-quote
characters removed first and then all leading/trailing single-quote characters
removed from the result; each strip removes the whole outer run of its quote
kind (the stripped list neither starts nor ends with that character); a
double-quote layer nested inside an outer single-quote layer is kept, while a
single-quote layer nested inside an outer double-quote layer is also removed. -/
theorem env_payload_characterization :
    (∀ k v, mkENV k v = .ENV (k ++ "=\"" ++ pyStripChar '\'' (pyStripChar '"' v) ++ "\"")) ∧
    (∀ (c : Char) (s : String) (hl : 0 < (stripL c s.data).length),
        (stripL c s.data).get ⟨0, hl⟩ ≠ c) ∧
    (∀ (c : Char) (s : String) (hl : stripL c s.data ≠ []),
        (stripL c s.data).getLast hl ≠ c) ∧
    mkENV "K" "'\"x\"'" = .ENV "K=\"\"x\"\"" ∧
    mkENV "K" "\"'x'\"" = .ENV "K=\"x\"" :=
  ⟨fun _ _ => rfl,
   fun c s hl => stripL_get_zero_ne c s.data hl,
   fun c s hl => stripL_getLast_ne c s.data hl,
   by decide, by decide⟩

/-- Witness for `env_payload_characterization` at the string `ab` and the
double-quote character. -/
theorem env_payload_characterization_witness :
    (stripL '"' "ab".data).get ⟨0, by decide⟩ ≠ '"' ∧
    (stripL '"' "ab".data).getLast (by decide) ≠ '"' :=
  ⟨env_payload_characterization.2.1 '"' "ab" (by decide),
   env_payload_characterization.2.2.1 '"' "ab" (by decide)⟩

/-- C8: in both variants, `package_install` and `package_uninstall` render the
package set sorted lexicographically regardless of the input enumeration order
— any two orderings of the same collection yield identical instructions — and
both install helpers refresh the index, install the sorted set, then prune the
index cache, in that order (the wheels variant with its `unstable` flag and
trailing `-y`, the zbuild variant with `-y` before the package list). -/
theorem package_helpers_sort_packages :
    (∀ (l₁ l₂ : List String) (u : Bool), l₁.Perm l₂ →
        package_install l₁ u = package_install l₂ u) ∧
    (∀ l₁ l₂ : List String, l₁.Perm l₂ → package_uninstall l₁ = package_uninstall l₂) ∧
    (∀ l₁ l₂ : List String, l₁.Perm l₂ → zPackage_install l₁ = zPackage_install l₂) ∧
    (∀ (l : List String) (u : Bool), ∃ i, package_install l u = .ok i ∧
        instrStr i = "RUN " ++ String.intercalate runSep
          [ "apt update",
            "apt install " ++ String.intercalate " " (pySorted l) ++ " "
              ++ (if u then "-t unstable" else "") ++ " -y",
            "rm -rf /var/lib/apt/lists/*" ]) ∧
    (∀ l : List String, ∃ i, zPackage_install l = .ok i ∧
        instrStr i = "RUN " ++ String.intercalate runSep
          [ "apt update",
            "apt install -y " ++ String.intercalate " " (pySorted l),
            "rm -rf /var/lib/apt/lists/*" ]) := by
  refine ⟨?_, ?_, ?_, ?_, ?_⟩
  · intro l₁ l₂ u h
    simp only [package_install, pySorted_perm_eq h]
  · intro l₁ l₂ h
    simp only [package_uninstall, pySorted_perm_eq h]
  · intro l₁ l₂ h
    simp only [zPackage_install, pySorted_perm_eq h]
  · intro l u
    exact ⟨_, rfl, rfl⟩
  · intro l
    exact ⟨_, rfl, rfl⟩

/-- Witness: `install({"zlib","curl"})` and `install({"curl","zlib"})` render
identically, in the wheels variant and in the zbuild variant. -/
theorem package_helpers_sort_packages_witness :
    package_install ["zlib", "curl"] false = package_install ["curl", "zlib"] false ∧
    zPackage_install ["zlib", "curl"] = zPackage_install ["curl", "zlib"] :=
  ⟨package_helpers_sort_packages.1 ["zlib", "curl"] ["curl", "zlib"] false (by decide),
   package_helpers_sort_packages.2.2.1 ["zlib", "curl"] ["curl", "zlib"] (by decide)⟩

/-- C5 counterexample: in the wheels variant the dependency constructor has no
uniqueness check — two distinct specs constructed with the name `protobuf`
both succeed and resolve to the same derived stage name, with no failure at
construction time of the second step. -/
theorem wheels_duplicate_names_accepted :
    (mkDependencyInstall "protobuf" "1.0" "https://a/{version}.tar.gz" "/pulsar/scratch").layer_name =
      "pulsar_build_protobuf" ∧
    (mkDependencyInstall "protobuf" "2.0" "https://b/{version}.tar.gz" "/pulsar/scratch").layer_name =
      "pulsar_build_protobuf" := ⟨rfl, rfl⟩

/-- C5 (amended): in the zbuild variant, constructing a second dependency
install step with an already-used name fails eagerly at construction time of
the second step with the duplicate-name condition, before any rendering; the
wheels variant performs no such check, so there colliding derived stage names
are possible. -/
theorem zbuild_second_construction_fails :
    ∀ (seen : List String) (n v u w v' u' w' : String) (d : DependencyInstall)
      (seen' : List String),
      zMkDep seen n v u w = .ok (d, seen') →
      zMkDep seen' n v' u' w' = .error (.duplicateName n) := by
  intro seen n v u w v' u' w' d seen' h
  rw [zMkDep] at h
  by_cases hc : seen.contains n
  · rw [if_pos hc] at h
    exact absurd h (by simp)
  · rw [if_neg hc] at h
    have hseen : seen' = n :: seen := by
      have := (Except.ok.injEq _ _).mp h
      exact (congrArg Prod.snd this).symm
    subst hseen
    rw [zMkDep, if_pos]
    simp

/-- Witness for `zbuild_second_construction_fails`: a first construction of
the name `x` from the empty registry succeeds, so a second one fails. -/
theorem zbuild_second_construction_fails_witness :
    zMkDep ["x"] "x" "2" "u2" "w2" = .error (.duplicateName "x") :=
  zbuild_second_construction_fails [] "x" "1" "u" "w" "2" "u2" "w2"
    ⟨"x", "w", "1", "u", "pulsar_build_x"⟩ ["x"] rfl

/-- C10: the zbuild `_seen_names` registry is process-global — any
construction whose name is already registered fails, whatever plan it belongs
to; consequently `dockerfile_lines()` succeeds from the empty registry and a
second call, which sees the first call's registry, raises the duplicate-name
failure on its very first dependency (`protobuf`) instead of reproducing the
plan text. -/
theorem zbuild_registry_process_global :
    (∀ (seen : List String) (n v u w : String), seen.contains n = true →
        zMkDep seen n v u w = .error (.duplicateName n)) ∧
    (zDockerfile_lines []).isOk = true ∧
    zDockerfile_lines zSeenAfterFirst = .error (.duplicateName "protobuf") := by
  refine ⟨?_, rfl, rfl⟩
  intro seen n v u w h
  rw [zMkDep, if_pos h]

/-- Witness for `zbuild_registry_process_global` at a one-element registry. -/
theorem zbuild_registry_process_global_witness :
    zMkDep ["boost"] "boost" "1.72.0" "u" "/pulsar/scratch" =
      .error (.duplicateName "boost") :=
  zbuild_registry_process_global.1 ["boost"] "boost" "1.72.0" "u" "/pulsar/scratch" (by decide)

/-- C2 counterexample: in the zbuild variant, two sequential
`dockerfile_lines()` calls do not both render the plan — the second call
raises the duplicate-name failure, so the two calls cannot yield identical
serialized text. -/
theorem zbuild_render_twice_fails :
    zRenderTwice = .error (.duplicateName "protobuf") := rfl

/-- C2 (amended): in the wheels variant, plan construction and rendering are a
pure function of the (runtime version, architecture) input — constructing the
plan twice from identical inputs yields byte-identical serialized text — and
rendering succeeds on a shipped configuration; in the zbuild variant only the
first `dockerfile_lines()` call of a process renders (see
`zbuild_render_twice_fails`). -/
theorem dockerfile_lines_deterministic :
    (∀ p₁ a₁ p₂ a₂ : String, p₁ = p₂ → a₁ = a₂ → renderBuild p₁ a₁ = renderBuild p₂ a₂) ∧
    (renderBuild "3.8.16" "amd64").isOk = true := by
  refine ⟨?_, rfl⟩
  intro p₁ a₁ p₂ a₂ hp ha
  rw [hp, ha]

/-- Witness for `dockerfile_lines_deterministic` at 3.8.16/amd64. -/
theorem dockerfile_lines_deterministic_witness :
    renderBuild "3.8.16" "amd64" = renderBuild "3.8.16" "amd64" :=
  dockerfile_lines_deterministic.1 "3.8.16" "amd64" "3.8.16" "amd64" rfl rfl

/-- C6 counterexample: over the versions 3.7.16 and 3.8.16 the enumeration is
not grouped by architecture — it is false that every `amd64` target precedes
every `arm64` target (the second target is `amd64`, the third `arm64`). -/
theorem matrix_not_grouped_by_arch :
    ¬ (∀ i j : Fin (enumTargets ["3.7.16", "3.8.16"]).length,
        ((enumTargets ["3.7.16", "3.8.16"]).get i).2 = "amd64" →
        ((enumTargets ["3.7.16", "3.8.16"]).get j).2 = "arm64" →
        (i : Nat) < (j : Nat)) := by decide

/-- C6 (amended): matrix enumeration produces the full Cartesian product of
the requested versions and the two architectures, each (version, architecture)
pair exactly once — 4 targets over the two-version example — but the order is
version-major with the fixed architecture tuple `('arm64', 'amd64')` inside
each version: architectures alternate, and no native-architecture grouping is
applied. -/
theorem matrix_cartesian_product :
    (∀ versions : List String, versions.Nodup → (enumTargets versions).Nodup) ∧
    (∀ (versions : List String) (v a : String),
        (v, a) ∈ enumTargets versions ↔ v ∈ versions ∧ a ∈ ARCHS) ∧
    (∀ versions : List String, (enumTargets versions).length = 2 * versions.length) ∧
    enumTargets ["3.7.16", "3.8.16"] =
      [("3.7.16", "arm64"), ("3.7.16", "amd64"), ("3.8.16", "arm64"), ("3.8.16", "amd64")] := by
  refine ⟨enumTargets_nodup, mem_enumTargets, ?_, rfl⟩
  intro versions
  induction versions with
  | nil => rfl
  | cons v vs ih =>
    simp only [enumTargets, ARCHS, List.flatMap_cons, List.length_append, List.length_cons,
      List.length_map, List.length_nil] at ih ⊢
    omega

/-- Witness for `matrix_cartesian_product` at the two-version instance. -/
theorem matrix_cartesian_product_witness :
    (enumTargets ["3.7.16", "3.8.16"]).Nodup :=
  matrix_cartesian_product.1 ["3.7.16", "3.8.16"] (by decide)

/-- C7 counterexample: with an external collaborator that fails on the first
matrix target only, `main` attempts exactly one of the six targets — the
uncaught `CalledProcessError` aborts the remaining matrix, and no
collected-failures summary is produced. -/
theorem first_failure_aborts_rest :
    mainRun failFirstOracle = ([("3.7.16", "arm64")], some ("3.7.16", "arm64")) ∧
    allTargets.length = 6 := ⟨rfl, rfl⟩

/-- C7 (amended): a failing external build-and-extract step raises
immediately through `subprocess.run(check=True)`, which nothing catches: the
attempted targets are exactly the prefix of the matrix up to and including the
first failing target, and only a failure-free run attempts the whole matrix. -/
theorem matrix_stops_at_first_failure :
    (∀ (ok : String × String → Bool) (ts : List (String × String)),
        (matrixRun ok ts).2 = none → (matrixRun ok ts).1 = ts) ∧
    (∀ (ok : String × String → Bool) (ts : List (String × String)) (t : String × String),
        (matrixRun ok ts).2 = some t →
        ok t = false ∧ (matrixRun ok ts).1 = ts.takeWhile ok ++ [t]) :=
  ⟨matrixRun_none, matrixRun_some⟩

/-- Witness for `matrix_stops_at_first_failure`: a failure-free run attempts
all six targets; a first-target failure truncates the attempts there. -/
theorem matrix_stops_at_first_failure_witness :
    (matrixRun (fun _ => true) allTargets).1 = allTargets ∧
    (matrixRun failFirstOracle allTargets).1 =
      allTargets.takeWhile failFirstOracle ++ [("3.7.16", "arm64")] :=
  ⟨matrix_stops_at_first_failure.1 (fun _ => true) allTargets rfl,
   (matrix_stops_at_first_failure.2 failFirstOracle allTargets ("3.7.16", "arm64") rfl).2⟩

/-- The fixed cutoff `StrictVersion('3.10')`. -/
def cutoff310 : StrictVersion := ⟨3, 10, 0, none⟩

/-- C1: target resolution compares the runtime version against the cutoff
`3.10` numerically componentwise — every parsed version `>= 3.10` selects the
newer pair (`debian:10`, `manylinux_2_27`) and every version below it selects
the older pair (`debian:9`, `manylinux_2_24`); in particular `3.9.0` selects
the older pair and `3.10.0` the newer one, even though a lexicographic string
comparison would put `3.10.0` below `3.9.0`. -/
theorem target_resolution_numeric :
    (∀ (s : String) (v : StrictVersion) (arch : String),
        parseStrictVersion s = some v → arch ∈ ARCHS →
        mkPulsarClientBuild s arch = .ok
          { python := s, arch := arch,
            builder_os := if svGE v cutoff310 then "debian:10" else "debian:9",
            wheel_platform := if svGE v cutoff310 then "manylinux_2_27" else "manylinux_2_24" }) ∧
    mkPulsarClientBuild "3.9.0" "amd64" =
      .ok ⟨"3.9.0", "amd64", "debian:9", "manylinux_2_24"⟩ ∧
    mkPulsarClientBuild "3.10.0" "amd64" =
      .ok ⟨"3.10.0", "amd64", "debian:10", "manylinux_2_27"⟩ ∧
    List.Lex (· < ·) "3.10.0".data "3.9.0".data := by
  refine ⟨?_, rfl, rfl, by decide⟩
  intro s v arch hv ha
  have h310 : parseStrictVersion "3.10" = some cutoff310 := by decide
  simp only [mkPulsarClientBuild, if_pos ha, hv, h310]
  cases hge : svGE v cutoff310 <;> simp [hge]

/-- Witness for `target_resolution_numeric` at version `4.0` on `arm64`. -/
theorem target_resolution_numeric_witness :
    mkPulsarClientBuild "4.0" "arm64" = .ok
      { python := "4.0", arch := "arm64",
        builder_os := if svGE ⟨4, 0, 0, none⟩ cutoff310 then "debian:10" else "debian:9",
        wheel_platform :=
          if svGE ⟨4, 0, 0, none⟩ cutoff310 then "manylinux_2_27" else "manylinux_2_24" } :=
  target_resolution_numeric.1 "4.0" ⟨4, 0, 0, none⟩ "arm64" (by decide) (by decide)
